import Mathlib

/-
Verification of the ChatmixCoreAudio repository against its design
specification.

The repository contains two Python variants of the same utility:
  src/chatmix.py  - a functional-style script
  src/coremix.py  - a class-based refactor (class CoreMix)

Both continuously read a hardware dial position from a USB headset and use
it to set per-application output volumes, splitting applications into
voice apps, excluded apps, and all other system apps.

This file is a shallow embedding of the behaviourally relevant parts of
both variants:
  * the dial-report decode step and its validity filter,
  * the per-session volume applier (set_volume_levels in both variants),
  * the session-classification step of the monitor loop,
  * the dial-poll-loop iteration with its USB error dispatch,
  * the session-poll-loop iteration with its event trace
    (settling delays, applier invocations),
  * the whole-system event driver used to compare the two variants,
  * the stop() method of the class-based variant,
  * a micro-step interleaving model of the two level-field assignments,
    used to study atomicity of the shared VolumeLevels update.

External collaborators (the USB device, the pycaw audio session provider,
Python threading) are modelled by their documented behaviour: a device
read either yields a byte report or a USBError with an errno; the audio
session provider yields a snapshot of process-backed sessions; a
SetMasterVolume call on one session is independently fallible, which is
modelled by a failure oracle of type Session -> Bool; joining a
threading.Thread that was never started raises RuntimeError.

All three call sites that enumerate sessions skip entries without a
backing process (the `if session.Process` guard), so session lists in
this embedding range over process-backed sessions only.
-/

/-- The pair of volume levels decoded from a dial report
(voice_level, system_level in 0..100). -/
structure VolumeLevels where
  voice_level : Nat
  system_level : Nat
deriving DecidableEq, Repr

/-- One process-backed audio session as enumerated by the audio session
provider: the owning process name and its process id. -/
structure Session where
  name : String
  pid : Nat
deriving DecidableEq, Repr

/-- The key under which coremix remembers a session:
`(session.Process.name(), session.ProcessId)`. -/
def Session.key (s : Session) : String × Nat := (s.name, s.pid)

/-- One volume-set call issued to the audio session provider:
`volume.SetMasterVolume(fraction, None)` for the given session. -/
structure Call where
  name : String
  pid : Nat
  volume : ℚ
deriving DecidableEq, Repr

/-- Failure oracle for the externally fallible SetMasterVolume call:
`true` means the call on that session raises. The all-successful run uses
`noFail`. -/
def noFail : Session → Bool := fun _ => false

/-- Log messages relevant to the claims (info / debug / exception calls). -/
inductive LogMsg where
  | levelsLog (voice_level system_level : Nat)
  | ignored
  | usbError (e : Nat)
  | disconnected
  | unexpected
deriving DecidableEq, Repr

/-- Whether a loop iteration lets the loop continue or terminates it. -/
inductive LoopCtl where
  | cont
  | halt
deriving DecidableEq, Repr

/-- Byte access `data[i]` on a report. Reports from the device are
max-packet-size byte buffers, so the index is in range; out-of-range
access (impossible for a real report) defaults to 0. -/
def byteAt (data : List Nat) (i : Nat) : Nat :=
  data.getD i 0

/-- Dial decode step of the class-based variant, coremix.py lines 97-106:
voice_level is read from byte offset 2, system_level from byte offset 1,
and the reading is kept only when voice_level == 100 or system_level == 100. -/
def CoreMix.decode (data : List Nat) : Option VolumeLevels :=
  let voice_level := byteAt data 2
  let system_level := byteAt data 1
  if voice_level = 100 ∨ system_level = 100 then
    some ⟨voice_level, system_level⟩
  else
    none

/-- Dial decode step of the functional variant, chatmix.py lines 178-192:
identical extraction offsets and validity filter. -/
def Chatmix.decode (data : List Nat) : Option VolumeLevels :=
  let voice_level := byteAt data 2
  let system_level := byteAt data 1
  if voice_level = 100 ∨ system_level = 100 then
    some ⟨voice_level, system_level⟩
  else
    none

/-- Declarative per-session description of one coremix apply pass: a session
whose pid is in voice_ids gets voice_level/100, a pid in exclude_ids gets no
call, every other session gets system_level/100. -/
def CoreMix.applyRule (voice_ids exclude_ids : List Nat)
    (voice_level system_level : Nat) (ss : Session) : Option Call :=
  if ss.pid ∈ voice_ids then some ⟨ss.name, ss.pid, (voice_level : ℚ) / 100⟩
  else if ss.pid ∈ exclude_ids then none
  else some ⟨ss.name, ss.pid, (system_level : ℚ) / 100⟩

/-- Volume applier of the class-based variant, CoreMix.set_volume_levels,
coremix.py lines 154-173. Iterates the sessions of a fresh provider
snapshot; pids remembered in voice_ids get voice_level/100, pids in
exclude_ids get no call, everything else gets system_level/100. The
SetMasterVolume call is externally fallible (oracle `fails`); the source
has no try/except around it, so a failure stops the iteration and the
exception escapes: the result carries the calls issued so far and the
session whose call raised, if any. -/
def CoreMix.set_volume_levels (fails : Session → Bool)
    (voice_ids exclude_ids : List Nat) (voice_level system_level : Nat) :
    List Session → List Call × Option Session
  | [] => ([], none)
  | ss :: rest =>
    if ss.pid ∈ voice_ids then
      if fails ss then ([], some ss)
      else
        let r := CoreMix.set_volume_levels fails voice_ids exclude_ids voice_level system_level rest
        (⟨ss.name, ss.pid, (voice_level : ℚ) / 100⟩ :: r.1, r.2)
    else if ss.pid ∈ exclude_ids then
      CoreMix.set_volume_levels fails voice_ids exclude_ids voice_level system_level rest
    else
      if fails ss then ([], some ss)
      else
        let r := CoreMix.set_volume_levels fails voice_ids exclude_ids voice_level system_level rest
        (⟨ss.name, ss.pid, (system_level : ℚ) / 100⟩ :: r.1, r.2)

/-- Declarative per-session description of one chatmix apply pass, which
classifies by process name at apply time instead of by remembered pid. -/
def Chatmix.applyRule (voice_apps exclude_apps : List String)
    (voice_level system_level : Nat) (ss : Session) : Option Call :=
  if ss.name ∈ voice_apps then some ⟨ss.name, ss.pid, (voice_level : ℚ) / 100⟩
  else if ss.name ∈ exclude_apps then none
  else some ⟨ss.name, ss.pid, (system_level : ℚ) / 100⟩

/-- Volume applier of the functional variant, set_volume_levels in
chatmix.py lines 142-166: same structure as the coremix applier but the
branch conditions test the process name against the configured name sets
on every pass. Also without any per-item exception handling. -/
def Chatmix.set_volume_levels (fails : Session → Bool)
    (voice_apps exclude_apps : List String) (voice_level system_level : Nat) :
    List Session → List Call × Option Session
  | [] => ([], none)
  | ss :: rest =>
    if ss.name ∈ voice_apps then
      if fails ss then ([], some ss)
      else
        let r := Chatmix.set_volume_levels fails voice_apps exclude_apps voice_level system_level rest
        (⟨ss.name, ss.pid, (voice_level : ℚ) / 100⟩ :: r.1, r.2)
    else if ss.name ∈ exclude_apps then
      Chatmix.set_volume_levels fails voice_apps exclude_apps voice_level system_level rest
    else
      if fails ss then ([], some ss)
      else
        let r := Chatmix.set_volume_levels fails voice_apps exclude_apps voice_level system_level rest
        (⟨ss.name, ss.pid, (system_level : ℚ) / 100⟩ :: r.1, r.2)

/-- Mutable state of a CoreMix object that the two loops touch:
the two cached levels (coremix.py lines 27-28) and the session-tracking
sets (lines 39-41). -/
structure CState where
  voice_level : Nat
  system_level : Nat
  voice_ids : List Nat
  exclude_ids : List Nat
  known_sessions : List (String × Nat)
deriving DecidableEq, Repr

/-- One observable outcome of the blocking device read: either a byte
report (paired with the provider snapshot the applier would see if it
runs), or a USBError with its errno. -/
inductive ReadEvent where
  | report (data : List Nat) (applySnap : List Session)
  | usbErr (e : Nat)

/-- Result of one dial-poll-loop iteration. -/
structure UsbIterOut where
  st : CState
  calls : List Call
  logs : List LogMsg
  ctl : LoopCtl
deriving DecidableEq, Repr

/-- One iteration of the dial poll loop of the class-based variant,
CoreMix.usb_reader, coremix.py lines 93-122. A valid report updates both
cached levels and triggers the applier; an invalid one is logged at debug
level and ignored. USBError errno 110 (timeout) silently continues;
errno 19 (device disconnected) logs and exits the loop; any other errno
is logged and the loop continues. An exception escaping the applier (it
is not a USBError) is caught by the outer handler, logged as unexpected,
and ends the loop. -/
def CoreMix.usb_iter (fails : Session → Bool) (st : CState) : ReadEvent → UsbIterOut
  | .report data applySnap =>
    let voice_level := byteAt data 2
    let system_level := byteAt data 1
    if voice_level = 100 ∨ system_level = 100 then
      let st1 := { st with voice_level := voice_level, system_level := system_level }
      let r := CoreMix.set_volume_levels fails st1.voice_ids st1.exclude_ids
        st1.voice_level st1.system_level applySnap
      match r.2 with
      | none => ⟨st1, r.1, [LogMsg.levelsLog voice_level system_level], LoopCtl.cont⟩
      | some _ =>
        ⟨st1, r.1, [LogMsg.levelsLog voice_level system_level, LogMsg.unexpected], LoopCtl.halt⟩
    else
      ⟨st, [], [LogMsg.ignored], LoopCtl.cont⟩
  | .usbErr e =>
    if e = 110 then ⟨st, [], [], LoopCtl.cont⟩
    else if e = 19 then ⟨st, [], [LogMsg.disconnected], LoopCtl.halt⟩
    else ⟨st, [], [LogMsg.usbError e], LoopCtl.cont⟩

/-- Result of running the dial poll loop over a sequence of read events.
`disposed` records that usb.util.dispose_resources ran (the finally block
of usb_reader, executed on every way out of the loop). -/
structure UsbRunOut where
  st : CState
  calls : List Call
  logs : List LogMsg
  disposed : Bool
deriving DecidableEq, Repr

/-- The dial poll loop of the class-based variant run over a list of read
events: each iteration is usb_iter; a halting iteration ends the loop,
leaving the remaining events unprocessed; the finally block disposes the
device resources on exit. -/
def CoreMix.usb_loop (fails : Session → Bool) : CState → List ReadEvent → UsbRunOut
  | st, [] => ⟨st, [], [], true⟩
  | st, ev :: rest =>
    let r := CoreMix.usb_iter fails st ev
    match r.ctl with
    | LoopCtl.halt => ⟨r.st, r.calls, r.logs, true⟩
    | LoopCtl.cont =>
      let q := CoreMix.usb_loop fails r.st rest
      ⟨q.st, r.calls ++ q.calls, r.logs ++ q.logs, q.disposed⟩


/-- Events observable from outside one session-poll-loop iteration:
a one-time-unit sleep, or an invocation of the volume applier. -/
inductive MEv where
  | sleepEv
  | applyEv
deriving DecidableEq, Repr

/-- The deduplicated (name, pid) keys of a provider snapshot, as built by
the set comprehension in coremix.py lines 130 and 133. -/
def CoreMix.currentKeys (snap : List Session) : List (String × Nat) :=
  (snap.map Session.key).dedup

/-- The new-session delta of one monitor iteration:
current_sessions - known_sessions (coremix.py line 134). -/
def CoreMix.newKeys (st : CState) (snap : List Session) : List (String × Nat) :=
  (CoreMix.currentKeys snap).filter (fun k => decide (k ∉ st.known_sessions))

/-- Classification of the new-session delta, coremix.py lines 137-146:
for each new (name, pid), a name in voice_apps adds the pid to voice_ids;
otherwise a name in exclude_apps adds the pid to exclude_ids; otherwise
the pid is only logged as a general session (no entry anywhere). Set add
is insert-if-absent. -/
def CoreMix.classify_new (voice_apps exclude_apps : List String) :
    List (String × Nat) → List Nat → List Nat → List Nat × List Nat
  | [], voice_ids, exclude_ids => (voice_ids, exclude_ids)
  | (n, p) :: rest, voice_ids, exclude_ids =>
    if n ∈ voice_apps then
      CoreMix.classify_new voice_apps exclude_apps rest (voice_ids.insert p) exclude_ids
    else if n ∈ exclude_apps then
      CoreMix.classify_new voice_apps exclude_apps rest voice_ids (exclude_ids.insert p)
    else
      CoreMix.classify_new voice_apps exclude_apps rest voice_ids exclude_ids

/-- Result of one session-poll-loop iteration of the class-based variant. -/
structure MonIterOut where
  st : CState
  calls : List Call
  events : List MEv
  ctl : LoopCtl
deriving DecidableEq, Repr

/-- One iteration of the session poll loop of the class-based variant,
CoreMix.monitor_new_sessions, coremix.py lines 131-152. If the delta is
nonempty the new keys are classified and the applier runs immediately
(there is no sleep between classification and the applier call); then the
known set is replaced wholesale by the current snapshot and the loop
sleeps one time unit. An exception escaping the applier is not caught
(the try only handles NoSuchProcess), so it ends the loop before the
known set is replaced. -/
def CoreMix.monitor_iter (fails : Session → Bool) (voice_apps exclude_apps : List String)
    (st : CState) (snap applySnap : List Session) : MonIterOut :=
  let current := CoreMix.currentKeys snap
  let newKs := CoreMix.newKeys st snap
  if newKs = [] then
    ⟨{ st with known_sessions := current }, [], [MEv.sleepEv], LoopCtl.cont⟩
  else
    let ids := CoreMix.classify_new voice_apps exclude_apps newKs st.voice_ids st.exclude_ids
    let st1 := { st with voice_ids := ids.1, exclude_ids := ids.2 }
    let r := CoreMix.set_volume_levels fails st1.voice_ids st1.exclude_ids
      st1.voice_level st1.system_level applySnap
    match r.2 with
    | none => ⟨{ st1 with known_sessions := current }, r.1, [MEv.applyEv, MEv.sleepEv], LoopCtl.cont⟩
    | some _ => ⟨st1, r.1, [MEv.applyEv], LoopCtl.halt⟩

/-- The session poll loop of the class-based variant run over a list of
snapshots (each snapshot is also what the applier would see in that
iteration), threading only the state. -/
def CoreMix.monitor_run (fails : Session → Bool) (voice_apps exclude_apps : List String) :
    CState → List (List Session) → CState
  | st, [] => st
  | st, snap :: rest =>
    CoreMix.monitor_run fails voice_apps exclude_apps
      (CoreMix.monitor_iter fails voice_apps exclude_apps st snap snap).st rest

/-- The deduplicated process names of a snapshot, as built by the set
comprehension in chatmix.py lines 214 and 219. -/
def Chatmix.currentNames (snap : List Session) : List String :=
  (snap.map Session.name).dedup

/-- New-name delta of one chatmix monitor iteration (line 222). -/
def Chatmix.newNames (known : List String) (snap : List Session) : List String :=
  (Chatmix.currentNames snap).filter (fun n => decide (n ∉ known))

/-- The per-new-name body of the chatmix monitor loop, lines 223-228: for
each new name, log, sleep one time unit, then run the applier over a
fresh provider snapshot with the cached levels. An applier exception ends
the loop. -/
def Chatmix.monitor_go (fails : Session → Bool) (voice_apps exclude_apps : List String)
    (cache : VolumeLevels) (applySnap : List Session) :
    List String → List Call × List MEv × LoopCtl
  | [] => ([], [], LoopCtl.cont)
  | _ :: rest =>
    let r := Chatmix.set_volume_levels fails voice_apps exclude_apps
      cache.voice_level cache.system_level applySnap
    match r.2 with
    | some _ => (r.1, [MEv.sleepEv, MEv.applyEv], LoopCtl.halt)
    | none =>
      let g := Chatmix.monitor_go fails voice_apps exclude_apps cache applySnap rest
      (r.1 ++ g.1, MEv.sleepEv :: MEv.applyEv :: g.2.1, g.2.2)

/-- Result of one session-poll-loop iteration of the functional variant. -/
structure ChatMonOut where
  known : List String
  calls : List Call
  events : List MEv
  ctl : LoopCtl
deriving DecidableEq, Repr

/-- One iteration of the session poll loop of the functional variant,
monitor_new_sessions in chatmix.py lines 215-236: a sleep and an applier
invocation per new name, then the known set is replaced wholesale and the
loop sleeps one time unit. -/
def Chatmix.monitor_iter (fails : Session → Bool) (voice_apps exclude_apps : List String)
    (cache : VolumeLevels) (known : List String) (snap applySnap : List Session) : ChatMonOut :=
  let current := Chatmix.currentNames snap
  let g := Chatmix.monitor_go fails voice_apps exclude_apps cache applySnap
    (Chatmix.newNames known snap)
  match g.2.2 with
  | LoopCtl.halt => ⟨known, g.1, g.2.1, LoopCtl.halt⟩
  | LoopCtl.cont => ⟨current, g.1, g.2.1 ++ [MEv.sleepEv], LoopCtl.cont⟩

/-- The CoreMix object state right after construction (coremix.py lines
27-41: levels 100/100, empty tracking sets) and the initial known-session
snapshot taken at the top of monitor_new_sessions (line 130). -/
def CoreMix.initState (snap0 : List Session) : CState :=
  ⟨100, 100, [], [], CoreMix.currentKeys snap0⟩

/-- One external stimulus fed to a whole variant: either the dial loop
receives a report (with the snapshot its applier would see), or the
monitor loop wakes up and takes a snapshot (again with the snapshot its
applier would see). -/
inductive SysEvent where
  | dial (data : List Nat) (applySnap : List Session)
  | tick (snap : List Session) (applySnap : List Session)

/-- Whole-system state of the class-based variant: the shared object
state plus whether each of the two loop threads is still running. -/
structure CoreSys where
  core : CState
  usbAlive : Bool
  monAlive : Bool
deriving DecidableEq, Repr

/-- Dispatch of one stimulus to the class-based variant. A loop that has
terminated ignores its stimuli; a halting iteration terminates only its
own loop. -/
def CoreMix.sys_step (fails : Session → Bool) (voice_apps exclude_apps : List String)
    (st : CoreSys) : SysEvent → CoreSys × List Call
  | .dial data applySnap =>
    if st.usbAlive then
      let r := CoreMix.usb_iter fails st.core (.report data applySnap)
      (⟨r.st, decide (r.ctl = LoopCtl.cont), st.monAlive⟩, r.calls)
    else (st, [])
  | .tick snap applySnap =>
    if st.monAlive then
      let r := CoreMix.monitor_iter fails voice_apps exclude_apps st.core snap applySnap
      (⟨r.st, st.usbAlive, decide (r.ctl = LoopCtl.cont)⟩, r.calls)
    else (st, [])

/-- The class-based variant run over a stimulus sequence, collecting the
volume-set calls it issues in order. -/
def CoreMix.sys_run (fails : Session → Bool) (voice_apps exclude_apps : List String) :
    CoreSys → List SysEvent → List Call
  | _, [] => []
  | st, ev :: rest =>
    let r := CoreMix.sys_step fails voice_apps exclude_apps st ev
    r.2 ++ CoreMix.sys_run fails voice_apps exclude_apps r.1 rest

/-- The class-based variant started on an initial snapshot. -/
def CoreMix.sys_init (snap0 : List Session) : CoreSys :=
  ⟨CoreMix.initState snap0, true, true⟩

/-- Whole-system state of the functional variant: the volume_cache
(chatmix.py lines 136-139), the known process-name set, and the two loop
liveness flags. -/
structure ChatSys where
  cache : VolumeLevels
  known : List String
  usbAlive : Bool
  monAlive : Bool
deriving DecidableEq, Repr

/-- Result of one dial-poll-loop iteration of the functional variant. -/
structure ChatUsbOut where
  cache : VolumeLevels
  calls : List Call
  logs : List LogMsg
  ctl : LoopCtl
deriving DecidableEq, Repr

/-- One iteration of the dial poll loop of the functional variant,
usb_reader in chatmix.py lines 173-208: identical control flow to the
class-based one, but the applier classifies by name and the state is the
volume_cache. -/
def Chatmix.usb_iter (fails : Session → Bool) (voice_apps exclude_apps : List String)
    (cache : VolumeLevels) : ReadEvent → ChatUsbOut
  | .report data applySnap =>
    let voice_level := byteAt data 2
    let system_level := byteAt data 1
    if voice_level = 100 ∨ system_level = 100 then
      let cache1 : VolumeLevels := ⟨voice_level, system_level⟩
      let r := Chatmix.set_volume_levels fails voice_apps exclude_apps
        cache1.voice_level cache1.system_level applySnap
      match r.2 with
      | none => ⟨cache1, r.1, [LogMsg.levelsLog voice_level system_level], LoopCtl.cont⟩
      | some _ =>
        ⟨cache1, r.1, [LogMsg.levelsLog voice_level system_level, LogMsg.unexpected], LoopCtl.halt⟩
    else
      ⟨cache, [], [LogMsg.ignored], LoopCtl.cont⟩
  | .usbErr e =>
    if e = 110 then ⟨cache, [], [], LoopCtl.cont⟩
    else if e = 19 then ⟨cache, [], [LogMsg.disconnected], LoopCtl.halt⟩
    else ⟨cache, [], [LogMsg.usbError e], LoopCtl.cont⟩

/-- Dispatch of one stimulus to the functional variant. -/
def Chatmix.sys_step (fails : Session → Bool) (voice_apps exclude_apps : List String)
    (st : ChatSys) : SysEvent → ChatSys × List Call
  | .dial data applySnap =>
    if st.usbAlive then
      let r := Chatmix.usb_iter fails voice_apps exclude_apps st.cache (.report data applySnap)
      (⟨r.cache, st.known, decide (r.ctl = LoopCtl.cont), st.monAlive⟩, r.calls)
    else (st, [])
  | .tick snap applySnap =>
    if st.monAlive then
      let r := Chatmix.monitor_iter fails voice_apps exclude_apps st.cache st.known snap applySnap
      (⟨st.cache, r.known, st.usbAlive, decide (r.ctl = LoopCtl.cont)⟩, r.calls)
    else (st, [])

/-- The functional variant run over a stimulus sequence, collecting the
volume-set calls it issues in order. -/
def Chatmix.sys_run (fails : Session → Bool) (voice_apps exclude_apps : List String) :
    ChatSys → List SysEvent → List Call
  | _, [] => []
  | st, ev :: rest =>
    let r := Chatmix.sys_step fails voice_apps exclude_apps st ev
    r.2 ++ Chatmix.sys_run fails voice_apps exclude_apps r.1 rest

/-- The functional variant started on an initial snapshot (volume_cache
initialized to 100/100, known names from the startup snapshot,
chatmix.py lines 136-139 and 214). -/
def Chatmix.sys_init (snap0 : List Session) : ChatSys :=
  ⟨⟨100, 100⟩, Chatmix.currentNames snap0, true, true⟩

/-- A Python threading.Thread handle: its identity and whether start()
was ever called on it. -/
structure PyThread where
  tid : Nat
  started : Bool
deriving DecidableEq, Repr

/-- Python threading.Thread.join semantics (external collaborator,
documented behaviour): join() raises RuntimeError when called on a
thread that was never started. -/
def PyThread.join (t : PyThread) : Except String Unit :=
  if t.started then Except.ok () else Except.error ("cannot join thread before it is started")

/-- Observable outcome of CoreMix.stop: whether the exit signal was set,
which thread ids were actually waited on to completion, and the message
of the exception it raised, if any. -/
structure StopOut where
  exitSignalSet : Bool
  joinedTids : List Nat
  raised : Option String
deriving DecidableEq, Repr

/-- CoreMix.stop, coremix.py lines 204-215: sets exit_event, then builds
two BRAND NEW Thread objects (threading.Thread(target=...) without
start()) whose ids are fresh, and calls join() on those new objects in
order. The ids of the actually running loop threads (started by run())
play no part in the body. -/
def CoreMix.stop (fresh1 fresh2 : Nat) : StopOut :=
  let usb_thread : PyThread := ⟨fresh1, false⟩
  let monitor_thread : PyThread := ⟨fresh2, false⟩
  match usb_thread.join with
  | Except.error e => ⟨true, [], some e⟩
  | Except.ok _ =>
    match monitor_thread.join with
    | Except.error e => ⟨true, [usb_thread.tid], some e⟩
    | Except.ok _ => ⟨true, [usb_thread.tid, monitor_thread.tid], none⟩

/-- One machine-level write of the accepted branch of the dial loop:
coremix.py line 102 assigns voice_level, line 103 assigns system_level,
as two separate statements. -/
inductive WStep where
  | setVoice (v : Nat)
  | setSystem (s : Nat)
deriving DecidableEq, Repr

/-- The write program the dial loop executes on the shared level pair for
one report: two separate assignments when the reading is accepted,
nothing when it is rejected (coremix.py lines 100-103). -/
def CoreMix.writeSteps (data : List Nat) : List WStep :=
  let voice_level := byteAt data 2
  let system_level := byteAt data 1
  if voice_level = 100 ∨ system_level = 100 then
    [WStep.setVoice voice_level, WStep.setSystem system_level]
  else
    []

/-- Effect of one write step on the shared (voice_level, system_level)
pair. -/
def applyWStep (p : Nat × Nat) : WStep → Nat × Nat
  | WStep.setVoice v => (v, p.2)
  | WStep.setSystem s => (p.1, s)

/-- An atomic action in an interleaved schedule of the two threads: a
write step of the dial thread, or a read of the whole pair by the
monitor thread (coremix.py line 147 passes self.voice_level and
self.system_level to the applier). -/
inductive SchedAct where
  | w (step : WStep)
  | readPair
deriving DecidableEq, Repr

/-- Execution of one interleaved schedule from a given shared pair,
returning the final pair and the list of pairs each read observed. -/
def runSched : Nat × Nat → List SchedAct → (Nat × Nat) × List (Nat × Nat)
  | p, [] => (p, [])
  | p, SchedAct.w step :: rest => runSched (applyWStep p step) rest
  | p, SchedAct.readPair :: rest =>
    let r := runSched p rest
    (r.1, p :: r.2)

/-- The writer projection of a schedule: the write steps it contains, in
order. A schedule is a legal interleaving of the dial thread with reads
when this projection equals the dial thread's write program. -/
def writerProj (acts : List SchedAct) : List WStep :=
  acts.filterMap (fun a => match a with
    | SchedAct.w step => some step
    | SchedAct.readPair => none)

/-- The three classes of the design specification. -/
inductive AppClass where
  | voice
  | excluded
  | system
deriving DecidableEq, Repr

/-- Effective class of a pid under the tracking sets, exactly as the
coremix applier reads them (voice_ids checked before exclude_ids,
everything else system). -/
def CoreMix.classOf (voice_ids exclude_ids : List Nat) (p : Nat) : AppClass :=
  if p ∈ voice_ids then AppClass.voice
  else if p ∈ exclude_ids then AppClass.excluded
  else AppClass.system

/-- The class the specification assigns to a name: voice if the name is
in the voice set (voice wins ties), else excluded if in the excluded
set, else system. -/
def specClassOf (voice_apps exclude_apps : List String) (nameOf : Nat → String)
    (p : Nat) : AppClass :=
  if nameOf p ∈ voice_apps then AppClass.voice
  else if nameOf p ∈ exclude_apps then AppClass.excluded
  else AppClass.system

/-- A snapshot is consistent with a name assignment when every session in
it carries the name of its pid. This encodes the specification's
assumption that an instance identifier is stable and denotes one process
with one executable name. -/
def consistentSnap (nameOf : Nat → String) (snap : List Session) : Prop :=
  ∀ ss ∈ snap, ss.name = nameOf ss.pid

/-- Invariant tying the tracking sets to the configured name sets: every
pid in voice_ids has a voice name, every pid in exclude_ids has a name
that is excluded and not voice. It holds initially (both sets empty) and
is preserved by classification of consistent snapshots. -/
def idsInv (voice_apps exclude_apps : List String) (nameOf : Nat → String)
    (st : CState) : Prop :=
  (∀ p ∈ st.voice_ids, nameOf p ∈ voice_apps) ∧
  (∀ p ∈ st.exclude_ids, nameOf p ∉ voice_apps ∧ nameOf p ∈ exclude_apps)

/-- Checks that in an event trace every applier invocation is preceded
(anywhere earlier in the same iteration) by a settling sleep. -/
def sleepBeforeEachApply : Bool → List MEv → Bool
  | _, [] => true
  | _, MEv.sleepEv :: rest => sleepBeforeEachApply true rest
  | seen, MEv.applyEv :: rest => seen && sleepBeforeEachApply seen rest

/-- A concrete stable name assignment used to instantiate the
classification theorems: pid 1 runs v.exe, pid 2 runs e.exe, every other
pid runs s.exe. -/
def c3name : Nat → String :=
  fun x => if x = 1 then ("v.exe") else if x = 2 then ("e.exe") else ("s.exe")

/-- When no SetMasterVolume call fails, the coremix applier issues exactly
one call per session as described by applyRule, and raises nothing. -/
lemma CoreMix.core_apply_noFail (voice_ids exclude_ids : List Nat)
    (voice_level system_level : Nat) (sessions : List Session) :
    CoreMix.set_volume_levels noFail voice_ids exclude_ids voice_level system_level sessions
      = (sessions.filterMap (CoreMix.applyRule voice_ids exclude_ids voice_level system_level),
         none) := by
  induction sessions with
  | nil => rfl
  | cons ss rest ih =>
    by_cases h1 : ss.pid ∈ voice_ids
    · simp [CoreMix.set_volume_levels, CoreMix.applyRule, h1, noFail, ih]
    · by_cases h2 : ss.pid ∈ exclude_ids
      · simp [CoreMix.set_volume_levels, CoreMix.applyRule, h1, h2, noFail, ih]
      · simp [CoreMix.set_volume_levels, CoreMix.applyRule, h1, h2, noFail, ih]

/-- When no SetMasterVolume call fails, the chatmix applier issues exactly
one call per session as described by its name-based applyRule. -/
lemma Chatmix.chat_apply_noFail (voice_apps exclude_apps : List String)
    (voice_level system_level : Nat) (sessions : List Session) :
    Chatmix.set_volume_levels noFail voice_apps exclude_apps voice_level system_level sessions
      = (sessions.filterMap (Chatmix.applyRule voice_apps exclude_apps voice_level system_level),
         none) := by
  induction sessions with
  | nil => rfl
  | cons ss rest ih =>
    by_cases h1 : ss.name ∈ voice_apps
    · simp [Chatmix.set_volume_levels, Chatmix.applyRule, h1, noFail, ih]
    · by_cases h2 : ss.name ∈ exclude_apps
      · simp [Chatmix.set_volume_levels, Chatmix.applyRule, h1, h2, noFail, ih]
      · simp [Chatmix.set_volume_levels, Chatmix.applyRule, h1, h2, noFail, ih]

/-- C1: for every raw dial report (at least 3 bytes long), the decode step
reads voice_level from byte offset 2 and system_level from byte offset 1,
accepts the reading exactly when voice_level == 100 or system_level == 100,
and a rejected reading leaves the stored volume levels (and all other
state) unchanged and issues no volume-set call, in both variants. -/
theorem C1_decode_validity_filter (data : List Nat) (st : CState)
    (voice_apps exclude_apps : List String) (cache : VolumeLevels)
    (applySnap : List Session) (fails : Session → Bool)
    (h : 2 < data.length) :
    byteAt data 2 = data.get ⟨2, h⟩
    ∧ byteAt data 1 = data.get ⟨1, by omega⟩
    ∧ (CoreMix.decode data = some ⟨byteAt data 2, byteAt data 1⟩
        ↔ (byteAt data 2 = 100 ∨ byteAt data 1 = 100))
    ∧ (CoreMix.decode data = none ↔ ¬(byteAt data 2 = 100 ∨ byteAt data 1 = 100))
    ∧ (CoreMix.decode data = none →
        CoreMix.usb_iter fails st (ReadEvent.report data applySnap)
          = ⟨st, [], [LogMsg.ignored], LoopCtl.cont⟩)
    ∧ (Chatmix.decode data = none →
        Chatmix.usb_iter fails voice_apps exclude_apps cache (ReadEvent.report data applySnap)
          = ⟨cache, [], [LogMsg.ignored], LoopCtl.cont⟩) := by
  refine ⟨(List.getD_eq_getElem data 0 h).trans (List.get_eq_getElem data ⟨2, h⟩).symm,
    (List.getD_eq_getElem data 0 (by omega)).trans (List.get_eq_getElem data ⟨1, by omega⟩).symm,
    ?_, ?_, ?_, ?_⟩ <;>
  · by_cases hc : byteAt data 2 = 100 ∨ byteAt data 1 = 100 <;>
      simp [CoreMix.decode, Chatmix.decode, CoreMix.usb_iter, Chatmix.usb_iter, hc]

/-- Witness for C1 at the concrete rejected report [0, 50, 60] (neither
extracted level is 100) with concrete states for both variants. -/
theorem C1_decode_validity_filter_witness :
    2 < ([0, 50, 60] : List Nat).length ∧
    (byteAt [0, 50, 60] 2 = ([0, 50, 60] : List Nat).get ⟨2, by decide⟩
    ∧ byteAt [0, 50, 60] 1 = ([0, 50, 60] : List Nat).get ⟨1, by decide⟩
    ∧ (CoreMix.decode [0, 50, 60] = some ⟨byteAt [0, 50, 60] 2, byteAt [0, 50, 60] 1⟩
        ↔ (byteAt [0, 50, 60] 2 = 100 ∨ byteAt [0, 50, 60] 1 = 100))
    ∧ (CoreMix.decode [0, 50, 60] = none
        ↔ ¬(byteAt [0, 50, 60] 2 = 100 ∨ byteAt [0, 50, 60] 1 = 100))
    ∧ (CoreMix.decode [0, 50, 60] = none →
        CoreMix.usb_iter noFail ⟨100, 100, [], [], []⟩ (ReadEvent.report [0, 50, 60] [])
          = ⟨⟨100, 100, [], [], []⟩, [], [LogMsg.ignored], LoopCtl.cont⟩)
    ∧ (Chatmix.decode [0, 50, 60] = none →
        Chatmix.usb_iter noFail [] [] ⟨100, 100⟩ (ReadEvent.report [0, 50, 60] [])
          = ⟨⟨100, 100⟩, [], [LogMsg.ignored], LoopCtl.cont⟩)) :=
  ⟨by decide,
   C1_decode_validity_filter [0, 50, 60] ⟨100, 100, [], [], []⟩ [] [] ⟨100, 100⟩ [] noFail
     (by decide)⟩

/-- C2: one apply pass with no call failures issues, for each live
session, a voice_level/100 call if its pid is tracked as voice, no call
at all if its pid is tracked as excluded, and a system_level/100 call
otherwise (tracked as system or absent from the tracking sets); and a
dial-loop iteration that triggers the applier never modifies the
classification tracking sets. -/
theorem C2_applier_per_class :
    (∀ (voice_ids exclude_ids : List Nat) (voice_level system_level : Nat)
        (sessions : List Session),
      CoreMix.set_volume_levels noFail voice_ids exclude_ids voice_level system_level sessions
        = (sessions.filterMap
            (CoreMix.applyRule voice_ids exclude_ids voice_level system_level), none))
    ∧ (∀ (fails : Session → Bool) (st : CState) (data : List Nat) (applySnap : List Session),
      (CoreMix.usb_iter fails st (ReadEvent.report data applySnap)).st.voice_ids = st.voice_ids
      ∧ (CoreMix.usb_iter fails st (ReadEvent.report data applySnap)).st.exclude_ids
          = st.exclude_ids) := by
  refine ⟨CoreMix.core_apply_noFail, ?_⟩
  intro fails st data applySnap
  by_cases hc : byteAt data 2 = 100 ∨ byteAt data 1 = 100
  · simp only [CoreMix.usb_iter, if_pos hc]
    constructor <;> (split <;> rfl)
  · simp only [CoreMix.usb_iter, if_neg hc]
    exact ⟨trivial, trivial⟩

/-- C8: USB error dispatch of the dial poll loop. Errno 110 (read
timeout) makes the loop continue with the next iteration without logging;
errno 19 (device disconnected) logs, terminates the loop ignoring every
later event, and the device resources are released on the way out; any
other errno is logged as a USB error and the loop continues. -/
theorem C8_usb_error_dispatch (fails : Session → Bool) (st : CState)
    (rest : List ReadEvent) (e : Nat) (h110 : e ≠ 110) (h19 : e ≠ 19) :
    CoreMix.usb_iter fails st (ReadEvent.usbErr 110) = ⟨st, [], [], LoopCtl.cont⟩
    ∧ CoreMix.usb_loop fails st (ReadEvent.usbErr 110 :: rest)
        = CoreMix.usb_loop fails st rest
    ∧ CoreMix.usb_iter fails st (ReadEvent.usbErr 19)
        = ⟨st, [], [LogMsg.disconnected], LoopCtl.halt⟩
    ∧ CoreMix.usb_loop fails st (ReadEvent.usbErr 19 :: rest)
        = ⟨st, [], [LogMsg.disconnected], true⟩
    ∧ CoreMix.usb_iter fails st (ReadEvent.usbErr e)
        = ⟨st, [], [LogMsg.usbError e], LoopCtl.cont⟩
    ∧ CoreMix.usb_loop fails st (ReadEvent.usbErr e :: rest)
        = ⟨(CoreMix.usb_loop fails st rest).st,
           (CoreMix.usb_loop fails st rest).calls,
           LogMsg.usbError e :: (CoreMix.usb_loop fails st rest).logs,
           (CoreMix.usb_loop fails st rest).disposed⟩ := by
  refine ⟨rfl, ?_, rfl, rfl, ?_, ?_⟩
  · simp [CoreMix.usb_loop, CoreMix.usb_iter]
  · simp [CoreMix.usb_iter, h110, h19]
  · have hiter : CoreMix.usb_iter fails st (ReadEvent.usbErr e)
        = ⟨st, [], [LogMsg.usbError e], LoopCtl.cont⟩ := by
      simp [CoreMix.usb_iter, h110, h19]
    simp [CoreMix.usb_loop, hiter]

/-- Witness for C8 at the concrete unlisted errno 5 (an input/output
error) with a concrete state and an empty remaining event list. -/
theorem C8_usb_error_dispatch_witness :
    ((5 : Nat) ≠ 110 ∧ (5 : Nat) ≠ 19) ∧
    (CoreMix.usb_iter noFail ⟨100, 100, [], [], []⟩ (ReadEvent.usbErr 110)
        = ⟨⟨100, 100, [], [], []⟩, [], [], LoopCtl.cont⟩
    ∧ CoreMix.usb_loop noFail ⟨100, 100, [], [], []⟩ [ReadEvent.usbErr 110]
        = CoreMix.usb_loop noFail ⟨100, 100, [], [], []⟩ []
    ∧ CoreMix.usb_iter noFail ⟨100, 100, [], [], []⟩ (ReadEvent.usbErr 19)
        = ⟨⟨100, 100, [], [], []⟩, [], [LogMsg.disconnected], LoopCtl.halt⟩
    ∧ CoreMix.usb_loop noFail ⟨100, 100, [], [], []⟩ [ReadEvent.usbErr 19]
        = ⟨⟨100, 100, [], [], []⟩, [], [LogMsg.disconnected], true⟩
    ∧ CoreMix.usb_iter noFail ⟨100, 100, [], [], []⟩ (ReadEvent.usbErr 5)
        = ⟨⟨100, 100, [], [], []⟩, [], [LogMsg.usbError 5], LoopCtl.cont⟩
    ∧ CoreMix.usb_loop noFail ⟨100, 100, [], [], []⟩ [ReadEvent.usbErr 5]
        = ⟨(CoreMix.usb_loop noFail ⟨100, 100, [], [], []⟩ []).st,
           (CoreMix.usb_loop noFail ⟨100, 100, [], [], []⟩ []).calls,
           LogMsg.usbError 5 :: (CoreMix.usb_loop noFail ⟨100, 100, [], [], []⟩ []).logs,
           (CoreMix.usb_loop noFail ⟨100, 100, [], [], []⟩ []).disposed⟩) :=
  ⟨⟨by decide, by decide⟩,
   C8_usb_error_dispatch noFail ⟨100, 100, [], [], []⟩ [] 5 (by decide) (by decide)⟩

/-- C7 evaluation: stop() does set the cancellation signal, but then
joins two freshly constructed Thread objects that were never started:
join() raises RuntimeError immediately, so stop() waits on no thread at
all. In particular it never waits for the two running loop threads
(started by run()) to observe the signal and exit, whatever their ids
are. -/
theorem C7_stop_joins_no_thread (fresh1 fresh2 : Nat) :
    CoreMix.stop fresh1 fresh2
      = ⟨true, [], some ("cannot join thread before it is started")⟩
    ∧ ∀ runningTid : Nat, runningTid ∉ (CoreMix.stop fresh1 fresh2).joinedTids := by
  constructor
  · rfl
  · intro runningTid
    show runningTid ∉ ([] : List Nat)
    simp

/-- Counterexample to C5: with two plain sessions and a SetMasterVolume
failure on the first one, the pass is aborted by the escaping exception:
no call at all is issued, in particular the remaining session (pid 2) is
not processed, contradicting the claim that it still would be. -/
theorem C5_counterexample :
    CoreMix.set_volume_levels (fun ss => decide (ss.pid = 1)) [] [] 30 80
        [⟨"appA", 1⟩, ⟨"appB", 2⟩] = ([], some ⟨"appA", 1⟩)
    ∧ (⟨"appB", 2, (80 : ℚ) / 100⟩ : Call)
        ∉ (CoreMix.set_volume_levels (fun ss => decide (ss.pid = 1)) [] [] 30 80
            [⟨"appA", 1⟩, ⟨"appB", 2⟩]).1 := by
  constructor
  · rfl
  · rw [show (CoreMix.set_volume_levels (fun ss => decide (ss.pid = 1)) [] [] 30 80
        [⟨"appA", 1⟩, ⟨"appB", 2⟩]).1 = [] from rfl]
    exact List.not_mem_nil _

/-- C5 as amended: a failure of a single session's volume-set call aborts
the apply pass. The calls already issued for the sessions before the
failing one stand (they follow the per-class rule), the exception
(carrying the failing session) escapes the applier, and no session after
the failing one is processed. -/
theorem C5_failure_aborts_pass (fails : Session → Bool)
    (voice_ids exclude_ids : List Nat) (voice_level system_level : Nat)
    (pre post : List Session) (fs : Session)
    (hpre : ∀ ss ∈ pre, fails ss = false)
    (hf : fails fs = true)
    (hcall : fs.pid ∈ voice_ids ∨ fs.pid ∉ exclude_ids) :
    CoreMix.set_volume_levels fails voice_ids exclude_ids voice_level system_level
        (pre ++ fs :: post)
      = (pre.filterMap (CoreMix.applyRule voice_ids exclude_ids voice_level system_level),
         some fs) := by
  induction pre with
  | nil =>
    by_cases h1 : fs.pid ∈ voice_ids
    · simp [CoreMix.set_volume_levels, h1, hf]
    · have h2 : fs.pid ∉ exclude_ids := hcall.resolve_left h1
      simp [CoreMix.set_volume_levels, h1, h2, hf]
  | cons ss rest ih =>
    have hss : fails ss = false := hpre ss (List.mem_cons_self ss rest)
    have hrest : ∀ ss2 ∈ rest, fails ss2 = false :=
      fun ss2 hmem => hpre ss2 (List.mem_cons_of_mem ss hmem)
    by_cases h1 : ss.pid ∈ voice_ids
    · simp [CoreMix.set_volume_levels, CoreMix.applyRule, h1, hss, ih hrest]
    · by_cases h2 : ss.pid ∈ exclude_ids
      · simp [CoreMix.set_volume_levels, CoreMix.applyRule, h1, h2, hss, ih hrest]
      · simp [CoreMix.set_volume_levels, CoreMix.applyRule, h1, h2, hss, ih hrest]

/-- Witness for C5 as amended: the session before the failing one gets
its system-level call, the failure session pid 1 escapes, the session
after it gets nothing. -/
theorem C5_failure_aborts_pass_witness :
    ((∀ ss ∈ ([⟨"appZ", 9⟩] : List Session), (fun s2 => decide (s2.pid = 1)) ss = false)
      ∧ (fun s2 : Session => decide (s2.pid = 1)) ⟨"appA", 1⟩ = true
      ∧ ((⟨"appA", 1⟩ : Session).pid ∈ ([] : List Nat)
          ∨ (⟨"appA", 1⟩ : Session).pid ∉ ([] : List Nat)))
    ∧ CoreMix.set_volume_levels (fun s2 => decide (s2.pid = 1)) [] [] 30 80
        ([⟨"appZ", 9⟩] ++ ⟨"appA", 1⟩ :: [⟨"appB", 2⟩])
      = (([⟨"appZ", 9⟩] : List Session).filterMap (CoreMix.applyRule [] [] 30 80),
         some ⟨"appA", 1⟩) :=
  ⟨⟨by decide, by decide, by decide⟩,
   C5_failure_aborts_pass (fun s2 => decide (s2.pid = 1)) [] [] 30 80
     [⟨"appZ", 9⟩] [⟨"appB", 2⟩] ⟨"appA", 1⟩ (by decide) (by decide) (by decide)⟩

/-- Counterexample to C4: one identical scenario for both variants —
voice set {discord.exe}, a discord.exe session (pid 7) already present in
the startup snapshot, then a single valid dial report with
system_level 80 (voice_level 100). The functional variant classifies by
name at apply time and sets discord.exe to 100/100; the class-based
variant classifies only new-session deltas by remembered pid, has pid 7
in no tracking set, and sets it to 80/100. The two call sequences
differ. -/
theorem C4_counterexample :
    Chatmix.sys_run noFail ["discord.exe"] [] (Chatmix.sys_init [⟨"discord.exe", 7⟩])
        [SysEvent.dial [0, 80, 100] [⟨"discord.exe", 7⟩]]
      = [⟨"discord.exe", 7, (100 : ℚ) / 100⟩]
    ∧ CoreMix.sys_run noFail ["discord.exe"] [] (CoreMix.sys_init [⟨"discord.exe", 7⟩])
        [SysEvent.dial [0, 80, 100] [⟨"discord.exe", 7⟩]]
      = [⟨"discord.exe", 7, (80 : ℚ) / 100⟩]
    ∧ Chatmix.sys_run noFail ["discord.exe"] [] (Chatmix.sys_init [⟨"discord.exe", 7⟩])
        [SysEvent.dial [0, 80, 100] [⟨"discord.exe", 7⟩]]
      ≠ CoreMix.sys_run noFail ["discord.exe"] [] (CoreMix.sys_init [⟨"discord.exe", 7⟩])
        [SysEvent.dial [0, 80, 100] [⟨"discord.exe", 7⟩]] := by
  refine ⟨rfl, rfl, ?_⟩
  rw [show Chatmix.sys_run noFail ["discord.exe"] [] (Chatmix.sys_init [⟨"discord.exe", 7⟩])
        [SysEvent.dial [0, 80, 100] [⟨"discord.exe", 7⟩]]
      = [⟨"discord.exe", 7, (100 : ℚ) / 100⟩] from rfl,
     show CoreMix.sys_run noFail ["discord.exe"] [] (CoreMix.sys_init [⟨"discord.exe", 7⟩])
        [SysEvent.dial [0, 80, 100] [⟨"discord.exe", 7⟩]]
      = [⟨"discord.exe", 7, (80 : ℚ) / 100⟩] from rfl]
  simp only [ne_eq, List.cons.injEq, Call.mk.injEq, and_true, true_and, not_and]
  intro hv
  norm_num at hv

/-- C4 as amended: the two variants share the dial-decoding behaviour
(identical extraction and validity filter), and their appliers agree when
the configured name sets and the remembered id sets are all empty (then
every session gets the system level in both variants); but their
classification mechanisms differ (name at apply time vs remembered pid),
so in general they do not issue the same call sequences. -/
theorem C4_decode_agrees_empty_config_agrees :
    (∀ data : List Nat, Chatmix.decode data = CoreMix.decode data)
    ∧ (∀ (voice_level system_level : Nat) (sessions : List Session),
        Chatmix.set_volume_levels noFail [] [] voice_level system_level sessions
          = CoreMix.set_volume_levels noFail [] [] voice_level system_level sessions) := by
  refine ⟨fun data => rfl, fun voice_level system_level sessions => ?_⟩
  have hfun : List.filterMap (Chatmix.applyRule [] [] voice_level system_level) sessions
      = List.filterMap (CoreMix.applyRule [] [] voice_level system_level) sessions := by
    induction sessions with
    | nil => rfl
    | cons ss rest ih => simp [Chatmix.applyRule, CoreMix.applyRule, ih]
  rw [Chatmix.chat_apply_noFail, CoreMix.core_apply_noFail, hfun]

/-- When no call fails, the per-new-name body of the chatmix monitor loop
emits, for each new name, one settling sleep followed by one applier
invocation over the whole apply snapshot, and never halts. -/
lemma Chatmix.monitor_go_noFail (voice_apps exclude_apps : List String)
    (cache : VolumeLevels) (applySnap : List Session) (names : List String) :
    Chatmix.monitor_go noFail voice_apps exclude_apps cache applySnap names
      = (names.flatMap (fun _ => applySnap.filterMap
            (Chatmix.applyRule voice_apps exclude_apps cache.voice_level cache.system_level)),
         names.flatMap (fun _ => [MEv.sleepEv, MEv.applyEv]), LoopCtl.cont) := by
  induction names with
  | nil => simp [Chatmix.monitor_go]
  | cons n rest ih =>
    simp [Chatmix.monitor_go, Chatmix.chat_apply_noFail, ih]

/-- In a trace made of sleep-then-apply blocks followed by the final
period sleep, every applier invocation is preceded by a sleep. -/
lemma sleepBeforeEachApply_blocks (names : List String) (b : Bool) :
    sleepBeforeEachApply b
        (names.flatMap (fun _ => [MEv.sleepEv, MEv.applyEv]) ++ [MEv.sleepEv]) = true := by
  induction names generalizing b with
  | nil => rfl
  | cons n rest ih => exact ih true

/-- Counterexample to C6: in the class-based variant, an iteration that
finds one new session classifies it and invokes the applier immediately:
the event trace is [apply, sleep], the applier call is issued, and no
settling sleep precedes the applier invocation inside the iteration. -/
theorem C6_counterexample :
    (CoreMix.monitor_iter noFail [] [] ⟨100, 100, [], [], []⟩ [⟨"appA", 1⟩] [⟨"appA", 1⟩]).events
      = [MEv.applyEv, MEv.sleepEv]
    ∧ (CoreMix.monitor_iter noFail [] [] ⟨100, 100, [], [], []⟩ [⟨"appA", 1⟩] [⟨"appA", 1⟩]).calls
      = [⟨"appA", 1, (100 : ℚ) / 100⟩]
    ∧ sleepBeforeEachApply false
        (CoreMix.monitor_iter noFail [] [] ⟨100, 100, [], [], []⟩
          [⟨"appA", 1⟩] [⟨"appA", 1⟩]).events
      = false :=
  ⟨rfl, rfl, rfl⟩

/-- C6 as amended: in the class-based variant an iteration with new
entries runs the applier once directly after classification with NO
settling delay before it (the single sleep of the iteration comes after,
as the loop period), then replaces the known-session set with the new
snapshot; an iteration without new entries only replaces the snapshot
and sleeps, never invoking the applier. In the functional variant each
new name does get a settling sleep before its own applier invocation
(one invocation per new name, each over the whole snapshot), the known
set is replaced afterwards, and no new names means no applier
invocation. -/
theorem C6_settling_delay_placement (voice_apps exclude_apps : List String)
    (st st0 : CState) (cache : VolumeLevels) (known : List String)
    (snap snap0 applySnap : List Session)
    (hnew : CoreMix.newKeys st snap ≠ [])
    (hempty : CoreMix.newKeys st0 snap0 = []) :
    ((CoreMix.monitor_iter noFail voice_apps exclude_apps st snap applySnap).events
        = [MEv.applyEv, MEv.sleepEv]
    ∧ (CoreMix.monitor_iter noFail voice_apps exclude_apps st snap applySnap).st.known_sessions
        = CoreMix.currentKeys snap
    ∧ sleepBeforeEachApply false
        (CoreMix.monitor_iter noFail voice_apps exclude_apps st snap applySnap).events = false)
    ∧ CoreMix.monitor_iter noFail voice_apps exclude_apps st0 snap0 applySnap
        = ⟨{ st0 with known_sessions := CoreMix.currentKeys snap0 }, [], [MEv.sleepEv],
           LoopCtl.cont⟩
    ∧ ((Chatmix.monitor_iter noFail voice_apps exclude_apps cache known snap applySnap).events
        = (Chatmix.newNames known snap).flatMap (fun _ => [MEv.sleepEv, MEv.applyEv])
            ++ [MEv.sleepEv]
    ∧ (Chatmix.monitor_iter noFail voice_apps exclude_apps cache known snap applySnap).calls
        = (Chatmix.newNames known snap).flatMap (fun _ => applySnap.filterMap
            (Chatmix.applyRule voice_apps exclude_apps cache.voice_level cache.system_level))
    ∧ (Chatmix.monitor_iter noFail voice_apps exclude_apps cache known snap applySnap).known
        = Chatmix.currentNames snap
    ∧ sleepBeforeEachApply false
        (Chatmix.monitor_iter noFail voice_apps exclude_apps cache known snap applySnap).events
        = true) := by
  refine ⟨?_, ?_, ?_⟩
  · have hmain : CoreMix.monitor_iter noFail voice_apps exclude_apps st snap applySnap
        = ⟨{ st with
              voice_ids := (CoreMix.classify_new voice_apps exclude_apps
                (CoreMix.newKeys st snap) st.voice_ids st.exclude_ids).1,
              exclude_ids := (CoreMix.classify_new voice_apps exclude_apps
                (CoreMix.newKeys st snap) st.voice_ids st.exclude_ids).2,
              known_sessions := CoreMix.currentKeys snap },
           applySnap.filterMap (CoreMix.applyRule
             (CoreMix.classify_new voice_apps exclude_apps
               (CoreMix.newKeys st snap) st.voice_ids st.exclude_ids).1
             (CoreMix.classify_new voice_apps exclude_apps
               (CoreMix.newKeys st snap) st.voice_ids st.exclude_ids).2
             st.voice_level st.system_level),
           [MEv.applyEv, MEv.sleepEv], LoopCtl.cont⟩ := by
      simp [CoreMix.monitor_iter, hnew, CoreMix.core_apply_noFail]
    rw [hmain]
    exact ⟨rfl, rfl, rfl⟩
  · simp [CoreMix.monitor_iter, hempty]
  · simp [Chatmix.monitor_iter, Chatmix.monitor_go_noFail, sleepBeforeEachApply_blocks]

/-- Witness for C6 as amended at concrete states: a fresh session appA
makes the delta of the first coremix state nonempty; the second coremix
state already knows appB so its delta is empty. -/
theorem C6_settling_delay_placement_witness :
    (CoreMix.newKeys ⟨100, 100, [], [], []⟩ [⟨"appA", 1⟩] ≠ []
     ∧ CoreMix.newKeys ⟨100, 100, [], [], [("appB", 2)]⟩ [⟨"appB", 2⟩] = [])
    ∧ (((CoreMix.monitor_iter noFail [] [] ⟨100, 100, [], [], []⟩
          [⟨"appA", 1⟩] [⟨"appA", 1⟩]).events = [MEv.applyEv, MEv.sleepEv]
    ∧ (CoreMix.monitor_iter noFail [] [] ⟨100, 100, [], [], []⟩
          [⟨"appA", 1⟩] [⟨"appA", 1⟩]).st.known_sessions = CoreMix.currentKeys [⟨"appA", 1⟩]
    ∧ sleepBeforeEachApply false
        (CoreMix.monitor_iter noFail [] [] ⟨100, 100, [], [], []⟩
          [⟨"appA", 1⟩] [⟨"appA", 1⟩]).events = false)
    ∧ CoreMix.monitor_iter noFail [] [] ⟨100, 100, [], [], [("appB", 2)]⟩
          [⟨"appB", 2⟩] [⟨"appA", 1⟩]
        = ⟨⟨100, 100, [], [], CoreMix.currentKeys [⟨"appB", 2⟩]⟩, [], [MEv.sleepEv],
           LoopCtl.cont⟩
    ∧ ((Chatmix.monitor_iter noFail [] [] ⟨100, 100⟩ [] [⟨"appA", 1⟩] [⟨"appA", 1⟩]).events
        = (Chatmix.newNames [] [⟨"appA", 1⟩]).flatMap (fun _ => [MEv.sleepEv, MEv.applyEv])
            ++ [MEv.sleepEv]
    ∧ (Chatmix.monitor_iter noFail [] [] ⟨100, 100⟩ [] [⟨"appA", 1⟩] [⟨"appA", 1⟩]).calls
        = (Chatmix.newNames [] [⟨"appA", 1⟩]).flatMap (fun _ =>
            ([⟨"appA", 1⟩] : List Session).filterMap (Chatmix.applyRule [] [] 100 100))
    ∧ (Chatmix.monitor_iter noFail [] [] ⟨100, 100⟩ [] [⟨"appA", 1⟩] [⟨"appA", 1⟩]).known
        = Chatmix.currentNames [⟨"appA", 1⟩]
    ∧ sleepBeforeEachApply false
        (Chatmix.monitor_iter noFail [] [] ⟨100, 100⟩ [] [⟨"appA", 1⟩] [⟨"appA", 1⟩]).events
        = true)) :=
  ⟨⟨by decide, by decide⟩,
   C6_settling_delay_placement [] [] ⟨100, 100, [], [], []⟩ ⟨100, 100, [], [], [("appB", 2)]⟩
     ⟨100, 100⟩ [] [⟨"appA", 1⟩] [⟨"appB", 2⟩] [⟨"appA", 1⟩] (by decide) (by decide)⟩

/-- Counterexample to C9: the two level fields are written by two
separate assignments, so a schedule in which the monitor thread reads the
pair between them is a legal interleaving. Starting from the initial
(100, 100), the dial thread fully processes the valid report
[0, 30, 100] (reading voice 100, system 30) and then begins the valid
report [0, 100, 77] (reading voice 77, system 100); a read placed between
its two assignments observes (77, 30) - the voice level of the second
reading paired with the system level of the first - a pair that belongs
to no single reading and is not the initial value either. -/
theorem C9_counterexample :
    writerProj
        [SchedAct.w (WStep.setVoice 100), SchedAct.w (WStep.setSystem 30),
         SchedAct.w (WStep.setVoice 77), SchedAct.readPair,
         SchedAct.w (WStep.setSystem 100)]
      = CoreMix.writeSteps [0, 30, 100] ++ CoreMix.writeSteps [0, 100, 77]
    ∧ CoreMix.decode [0, 30, 100] = some ⟨100, 30⟩
    ∧ CoreMix.decode [0, 100, 77] = some ⟨77, 100⟩
    ∧ (runSched (100, 100)
        [SchedAct.w (WStep.setVoice 100), SchedAct.w (WStep.setSystem 30),
         SchedAct.w (WStep.setVoice 77), SchedAct.readPair,
         SchedAct.w (WStep.setSystem 100)]).2
      = [(77, 30)]
    ∧ ((77 : Nat), (30 : Nat)) ≠ (100, 30)
    ∧ ((77 : Nat), (30 : Nat)) ≠ (77, 100)
    ∧ ((77 : Nat), (30 : Nat)) ≠ (100, 100) := by
  refine ⟨by decide, by decide, by decide, by decide, by decide, by decide, by decide⟩

/-- C9 as amended: the shared level pair starts at (100, 100); a rejected
reading triggers no write at all; a session-poll-loop iteration never
writes the levels (only the dial loop does); and when the dial thread's
two assignments for an accepted reading run without interruption the
pair afterwards equals that reading exactly. The update is however not
atomic - it is two separate assignments, and a concurrent read between
them observes a mixed pair (see the torn-read schedule above). -/
theorem C9_levels_pair_update (snap0 : List Session) (dataR dataA : List Nat)
    (lv : VolumeLevels) (p : Nat × Nat) (fails : Session → Bool)
    (voice_apps exclude_apps : List String) (st : CState) (snap applySnap : List Session)
    (hrej : CoreMix.decode dataR = none)
    (hacc : CoreMix.decode dataA = some lv) :
    ((CoreMix.initState snap0).voice_level = 100
      ∧ (CoreMix.initState snap0).system_level = 100)
    ∧ CoreMix.writeSteps dataR = []
    ∧ (runSched p ((CoreMix.writeSteps dataA).map SchedAct.w)).1
        = (lv.voice_level, lv.system_level)
    ∧ ((CoreMix.monitor_iter fails voice_apps exclude_apps st snap applySnap).st.voice_level
        = st.voice_level
      ∧ (CoreMix.monitor_iter fails voice_apps exclude_apps st snap applySnap).st.system_level
        = st.system_level) := by
  refine ⟨⟨rfl, rfl⟩, ?_, ?_, ?_⟩
  · have hc : ¬(byteAt dataR 2 = 100 ∨ byteAt dataR 1 = 100) := by
      intro hc
      rw [show CoreMix.decode dataR = some ⟨byteAt dataR 2, byteAt dataR 1⟩ from by
        simp [CoreMix.decode, hc]] at hrej
      exact Option.noConfusion hrej
    simp [CoreMix.writeSteps, hc]
  · by_cases hc : byteAt dataA 2 = 100 ∨ byteAt dataA 1 = 100
    · rw [show CoreMix.decode dataA = some ⟨byteAt dataA 2, byteAt dataA 1⟩ from by
        simp [CoreMix.decode, hc]] at hacc
      have hlv : lv = ⟨byteAt dataA 2, byteAt dataA 1⟩ := (Option.some.injEq _ _ ▸ hacc).symm
      subst hlv
      simp [CoreMix.writeSteps, hc, runSched, applyWStep]
    · rw [show CoreMix.decode dataA = none from by simp [CoreMix.decode, hc]] at hacc
      exact Option.noConfusion hacc
  · unfold CoreMix.monitor_iter
    by_cases hn : CoreMix.newKeys st snap = []
    · simp [hn]
    · simp only [if_neg hn]
      constructor <;> (split <;> rfl)

/-- Witness for C9 as amended: report [9, 9, 9] is rejected (no write),
report [0, 30, 100] is accepted and an uninterrupted pair of writes from
(5, 5) lands exactly on (100, 30). -/
theorem C9_levels_pair_update_witness :
    (CoreMix.decode [9, 9, 9] = none ∧ CoreMix.decode [0, 30, 100] = some ⟨100, 30⟩)
    ∧ (((CoreMix.initState []).voice_level = 100
      ∧ (CoreMix.initState []).system_level = 100)
    ∧ CoreMix.writeSteps [9, 9, 9] = []
    ∧ (runSched (5, 5) ((CoreMix.writeSteps [0, 30, 100]).map SchedAct.w)).1
        = ((⟨100, 30⟩ : VolumeLevels).voice_level, (⟨100, 30⟩ : VolumeLevels).system_level)
    ∧ ((CoreMix.monitor_iter noFail [] [] ⟨1, 2, [], [], []⟩ [] []).st.voice_level = 1
      ∧ (CoreMix.monitor_iter noFail [] [] ⟨1, 2, [], [], []⟩ [] []).st.system_level = 2)) :=
  ⟨⟨by decide, by decide⟩,
   C9_levels_pair_update [] [9, 9, 9] [0, 30, 100] ⟨100, 30⟩ (5, 5) noFail [] []
     ⟨1, 2, [], [], []⟩ [] [] (by decide) (by decide)⟩

/-- Membership in the voice tracking set after classifying a delta: a pid
is there exactly when it was already there or some delta entry carries it
with a voice name. -/
lemma CoreMix.classify_new_fst_mem (voice_apps exclude_apps : List String)
    (l : List (String × Nat)) (voice_ids exclude_ids : List Nat) (q : Nat) :
    q ∈ (CoreMix.classify_new voice_apps exclude_apps l voice_ids exclude_ids).1
      ↔ q ∈ voice_ids ∨ ∃ n, (n, q) ∈ l ∧ n ∈ voice_apps := by
  induction l generalizing voice_ids exclude_ids with
  | nil => simp [CoreMix.classify_new]
  | cons hd tl ih =>
    obtain ⟨n, p⟩ := hd
    by_cases h1 : n ∈ voice_apps
    · rw [show CoreMix.classify_new voice_apps exclude_apps ((n, p) :: tl) voice_ids exclude_ids
          = CoreMix.classify_new voice_apps exclude_apps tl (voice_ids.insert p) exclude_ids
        from by simp [CoreMix.classify_new, h1]]
      rw [ih]
      simp only [List.mem_insert_iff, List.mem_cons, Prod.mk.injEq]
      constructor
      · rintro ((h | h) | ⟨m, hm, hv⟩)
        · exact Or.inr ⟨n, Or.inl ⟨rfl, h⟩, h1⟩
        · exact Or.inl h
        · exact Or.inr ⟨m, Or.inr hm, hv⟩
      · rintro (h | ⟨m, (⟨hmn, hqp⟩ | hm), hv⟩)
        · exact Or.inl (Or.inr h)
        · exact Or.inl (Or.inl hqp)
        · exact Or.inr ⟨m, hm, hv⟩
    · by_cases h2 : n ∈ exclude_apps
      · rw [show CoreMix.classify_new voice_apps exclude_apps ((n, p) :: tl) voice_ids exclude_ids
            = CoreMix.classify_new voice_apps exclude_apps tl voice_ids (exclude_ids.insert p)
          from by simp [CoreMix.classify_new, h1, h2]]
        rw [ih]
        simp only [List.mem_cons, Prod.mk.injEq]
        constructor
        · rintro (h | ⟨m, hm, hv⟩)
          · exact Or.inl h
          · exact Or.inr ⟨m, Or.inr hm, hv⟩
        · rintro (h | ⟨m, (⟨hmn, hqp⟩ | hm), hv⟩)
          · exact Or.inl h
          · exact absurd (hmn ▸ hv) h1
          · exact Or.inr ⟨m, hm, hv⟩
      · rw [show CoreMix.classify_new voice_apps exclude_apps ((n, p) :: tl) voice_ids exclude_ids
            = CoreMix.classify_new voice_apps exclude_apps tl voice_ids exclude_ids
          from by simp [CoreMix.classify_new, h1, h2]]
        rw [ih]
        simp only [List.mem_cons, Prod.mk.injEq]
        constructor
        · rintro (h | ⟨m, hm, hv⟩)
          · exact Or.inl h
          · exact Or.inr ⟨m, Or.inr hm, hv⟩
        · rintro (h | ⟨m, (⟨hmn, hqp⟩ | hm), hv⟩)
          · exact Or.inl h
          · exact absurd (hmn ▸ hv) h1
          · exact Or.inr ⟨m, hm, hv⟩

/-- Membership in the excluded tracking set after classifying a delta: a
pid is there exactly when it was already there or some delta entry
carries it with a name that is excluded and not voice. -/
lemma CoreMix.classify_new_snd_mem (voice_apps exclude_apps : List String)
    (l : List (String × Nat)) (voice_ids exclude_ids : List Nat) (q : Nat) :
    q ∈ (CoreMix.classify_new voice_apps exclude_apps l voice_ids exclude_ids).2
      ↔ q ∈ exclude_ids ∨ ∃ n, (n, q) ∈ l ∧ n ∉ voice_apps ∧ n ∈ exclude_apps := by
  induction l generalizing voice_ids exclude_ids with
  | nil => simp [CoreMix.classify_new]
  | cons hd tl ih =>
    obtain ⟨n, p⟩ := hd
    by_cases h1 : n ∈ voice_apps
    · rw [show CoreMix.classify_new voice_apps exclude_apps ((n, p) :: tl) voice_ids exclude_ids
          = CoreMix.classify_new voice_apps exclude_apps tl (voice_ids.insert p) exclude_ids
        from by simp [CoreMix.classify_new, h1]]
      rw [ih]
      simp only [List.mem_cons, Prod.mk.injEq]
      constructor
      · rintro (h | ⟨m, hm, hv⟩)
        · exact Or.inl h
        · exact Or.inr ⟨m, Or.inr hm, hv⟩
      · rintro (h | ⟨m, (⟨hmn, hqp⟩ | hm), hv, he⟩)
        · exact Or.inl h
        · exact absurd (hmn ▸ h1) hv
        · exact Or.inr ⟨m, hm, hv, he⟩
    · by_cases h2 : n ∈ exclude_apps
      · rw [show CoreMix.classify_new voice_apps exclude_apps ((n, p) :: tl) voice_ids exclude_ids
            = CoreMix.classify_new voice_apps exclude_apps tl voice_ids (exclude_ids.insert p)
          from by simp [CoreMix.classify_new, h1, h2]]
        rw [ih]
        simp only [List.mem_insert_iff, List.mem_cons, Prod.mk.injEq]
        constructor
        · rintro ((h | h) | ⟨m, hm, hv⟩)
          · exact Or.inr ⟨n, Or.inl ⟨rfl, h⟩, h1, h2⟩
          · exact Or.inl h
          · exact Or.inr ⟨m, Or.inr hm, hv⟩
        · rintro (h | ⟨m, (⟨hmn, hqp⟩ | hm), hv, he⟩)
          · exact Or.inl (Or.inr h)
          · exact Or.inl (Or.inl hqp)
          · exact Or.inr ⟨m, hm, hv, he⟩
      · rw [show CoreMix.classify_new voice_apps exclude_apps ((n, p) :: tl) voice_ids exclude_ids
            = CoreMix.classify_new voice_apps exclude_apps tl voice_ids exclude_ids
          from by simp [CoreMix.classify_new, h1, h2]]
        rw [ih]
        simp only [List.mem_cons, Prod.mk.injEq]
        constructor
        · rintro (h | ⟨m, hm, hv⟩)
          · exact Or.inl h
          · exact Or.inr ⟨m, Or.inr hm, hv⟩
        · rintro (h | ⟨m, (⟨hmn, hqp⟩ | hm), hv, he⟩)
          · exact Or.inl h
          · exact absurd (hmn ▸ he) h2
          · exact Or.inr ⟨m, hm, hv, he⟩

/-- A key is in the delta exactly when it is a current key and not a
known one. -/
lemma CoreMix.mem_newKeys (st : CState) (snap : List Session) (k : String × Nat) :
    k ∈ CoreMix.newKeys st snap
      ↔ k ∈ CoreMix.currentKeys snap ∧ k ∉ st.known_sessions := by
  simp [CoreMix.newKeys, List.mem_filter]

/-- A key is current exactly when some session of the snapshot carries
it. -/
lemma CoreMix.mem_currentKeys (snap : List Session) (k : String × Nat) :
    k ∈ CoreMix.currentKeys snap ↔ ∃ ss ∈ snap, Session.key ss = k := by
  simp [CoreMix.currentKeys, List.mem_dedup, List.mem_map]

/-- For a snapshot consistent with a name assignment, every delta key
carries the name of its pid. -/
lemma consistent_newKeys (nameOf : Nat → String) (st : CState) (snap : List Session)
    (hcons : consistentSnap nameOf snap) :
    ∀ k ∈ CoreMix.newKeys st snap, k.1 = nameOf k.2 := by
  intro k hk
  obtain ⟨hcur, _⟩ := (CoreMix.mem_newKeys st snap k).1 hk
  obtain ⟨ss, hss, hkey⟩ := (CoreMix.mem_currentKeys snap k).1 hcur
  rw [← hkey]
  exact hcons ss hss

/-- With no call failures, a monitor iteration always reaches the end of
its body: the tracking sets are extended by classification of the delta
and the known-session set is replaced wholesale by the current keys; the
cached levels are untouched. -/
lemma CoreMix.monitor_iter_noFail_st (voice_apps exclude_apps : List String)
    (st : CState) (snap applySnap : List Session) :
    (CoreMix.monitor_iter noFail voice_apps exclude_apps st snap applySnap).st
      = { st with
          voice_ids := (CoreMix.classify_new voice_apps exclude_apps
            (CoreMix.newKeys st snap) st.voice_ids st.exclude_ids).1,
          exclude_ids := (CoreMix.classify_new voice_apps exclude_apps
            (CoreMix.newKeys st snap) st.voice_ids st.exclude_ids).2,
          known_sessions := CoreMix.currentKeys snap } := by
  unfold CoreMix.monitor_iter
  by_cases hn : CoreMix.newKeys st snap = []
  · simp [hn, CoreMix.classify_new]
  · simp [hn, CoreMix.core_apply_noFail]

/-- C3: classification of application instances in the class-based
variant, for snapshots consistent with a stable name assignment and a
state satisfying the tracking invariant. The tracking sets only grow
(entries are never removed) and keep the invariant; a pid p not yet
tracked whose key is in the new-session delta ends up classified exactly
as the specification rule dictates (voice if its name is a voice name -
winning even over the excluded set - else excluded if its name is
excluded, else system, reflected by absence from both sets); a pid q
already classified voice or excluded keeps its class; a pid r whose name
is in neither configured set keeps its class; and the specification rule
classifies a voice name as voice even when it is in both sets. -/
theorem C3_classification_exactly_once (voice_apps exclude_apps : List String)
    (nameOf : Nat → String) (st : CState) (snap applySnap : List Session)
    (p q r m : Nat)
    (hcons : consistentSnap nameOf snap)
    (hinv : idsInv voice_apps exclude_apps nameOf st)
    (hp1 : p ∉ st.voice_ids) (hp2 : p ∉ st.exclude_ids)
    (hp3 : (nameOf p, p) ∈ CoreMix.newKeys st snap)
    (hq : CoreMix.classOf st.voice_ids st.exclude_ids q ≠ AppClass.system)
    (hr1 : nameOf r ∉ voice_apps) (hr2 : nameOf r ∉ exclude_apps)
    (hm : nameOf m ∈ voice_apps) :
    (st.voice_ids
        ⊆ (CoreMix.monitor_iter noFail voice_apps exclude_apps st snap applySnap).st.voice_ids
      ∧ st.exclude_ids
        ⊆ (CoreMix.monitor_iter noFail voice_apps exclude_apps st snap applySnap).st.exclude_ids)
    ∧ idsInv voice_apps exclude_apps nameOf
        (CoreMix.monitor_iter noFail voice_apps exclude_apps st snap applySnap).st
    ∧ CoreMix.classOf
        (CoreMix.monitor_iter noFail voice_apps exclude_apps st snap applySnap).st.voice_ids
        (CoreMix.monitor_iter noFail voice_apps exclude_apps st snap applySnap).st.exclude_ids p
      = specClassOf voice_apps exclude_apps nameOf p
    ∧ CoreMix.classOf
        (CoreMix.monitor_iter noFail voice_apps exclude_apps st snap applySnap).st.voice_ids
        (CoreMix.monitor_iter noFail voice_apps exclude_apps st snap applySnap).st.exclude_ids q
      = CoreMix.classOf st.voice_ids st.exclude_ids q
    ∧ CoreMix.classOf
        (CoreMix.monitor_iter noFail voice_apps exclude_apps st snap applySnap).st.voice_ids
        (CoreMix.monitor_iter noFail voice_apps exclude_apps st snap applySnap).st.exclude_ids r
      = CoreMix.classOf st.voice_ids st.exclude_ids r
    ∧ specClassOf voice_apps exclude_apps nameOf m = AppClass.voice := by
  have hkeys := consistent_newKeys nameOf st snap hcons
  rw [CoreMix.monitor_iter_noFail_st]
  simp only
  have hv : ∀ x : Nat,
      x ∈ (CoreMix.classify_new voice_apps exclude_apps (CoreMix.newKeys st snap)
            st.voice_ids st.exclude_ids).1
        ↔ x ∈ st.voice_ids ∨ ∃ n, (n, x) ∈ CoreMix.newKeys st snap ∧ n ∈ voice_apps :=
    fun x => CoreMix.classify_new_fst_mem voice_apps exclude_apps
      (CoreMix.newKeys st snap) st.voice_ids st.exclude_ids x
  have he : ∀ x : Nat,
      x ∈ (CoreMix.classify_new voice_apps exclude_apps (CoreMix.newKeys st snap)
            st.voice_ids st.exclude_ids).2
        ↔ x ∈ st.exclude_ids
          ∨ ∃ n, (n, x) ∈ CoreMix.newKeys st snap ∧ n ∉ voice_apps ∧ n ∈ exclude_apps :=
    fun x => CoreMix.classify_new_snd_mem voice_apps exclude_apps
      (CoreMix.newKeys st snap) st.voice_ids st.exclude_ids x
  refine ⟨⟨fun x hx => (hv x).2 (Or.inl hx), fun x hx => (he x).2 (Or.inl hx)⟩, ?_, ?_, ?_, ?_, ?_⟩
  · constructor
    · intro x hx
      rcases (hv x).1 hx with h | ⟨n, hn, hna⟩
      · exact hinv.1 x h
      · exact (hkeys (n, x) hn) ▸ hna
    · intro x hx
      rcases (he x).1 hx with h | ⟨n, hn, hnv, hne⟩
      · exact hinv.2 x h
      · exact ⟨(hkeys (n, x) hn) ▸ hnv, (hkeys (n, x) hn) ▸ hne⟩
  · have hpv : p ∈ (CoreMix.classify_new voice_apps exclude_apps (CoreMix.newKeys st snap)
          st.voice_ids st.exclude_ids).1 ↔ nameOf p ∈ voice_apps := by
      rw [hv]
      constructor
      · rintro (h | ⟨n, hn, hna⟩)
        · exact absurd h hp1
        · exact (hkeys (n, p) hn) ▸ hna
      · intro h
        exact Or.inr ⟨nameOf p, hp3, h⟩
    have hpe : p ∈ (CoreMix.classify_new voice_apps exclude_apps (CoreMix.newKeys st snap)
          st.voice_ids st.exclude_ids).2
        ↔ (nameOf p ∉ voice_apps ∧ nameOf p ∈ exclude_apps) := by
      rw [he]
      constructor
      · rintro (h | ⟨n, hn, hnv, hne⟩)
        · exact absurd h hp2
        · exact ⟨(hkeys (n, p) hn) ▸ hnv, (hkeys (n, p) hn) ▸ hne⟩
      · intro h
        exact Or.inr ⟨nameOf p, hp3, h⟩
    by_cases hva : nameOf p ∈ voice_apps
    · simp [CoreMix.classOf, specClassOf, hva, hpv.2 hva]
    · by_cases hea : nameOf p ∈ exclude_apps
      · simp [CoreMix.classOf, specClassOf, hva, hea,
          (show p ∉ _ from fun hx => hva (hpv.1 hx)), hpe.2 ⟨hva, hea⟩]
      · simp [CoreMix.classOf, specClassOf, hva, hea,
          (show p ∉ _ from fun hx => hva (hpv.1 hx)),
          (show p ∉ _ from fun hx => hea ((hpe.1 hx).2))]
  · by_cases hqv : q ∈ st.voice_ids
    · have hq1 : q ∈ (CoreMix.classify_new voice_apps exclude_apps (CoreMix.newKeys st snap)
          st.voice_ids st.exclude_ids).1 := (hv q).2 (Or.inl hqv)
      simp [CoreMix.classOf, hqv, hq1]
    · have hqe : q ∈ st.exclude_ids := by
        by_contra hqe
        exact hq (by simp [CoreMix.classOf, hqv, hqe])
      have hnv : nameOf q ∉ voice_apps := (hinv.2 q hqe).1
      have hq1 : q ∉ (CoreMix.classify_new voice_apps exclude_apps (CoreMix.newKeys st snap)
          st.voice_ids st.exclude_ids).1 := by
        rw [hv]
        rintro (h | ⟨n, hn, hna⟩)
        · exact hqv h
        · exact hnv ((hkeys (n, q) hn) ▸ hna)
      have hq2 : q ∈ (CoreMix.classify_new voice_apps exclude_apps (CoreMix.newKeys st snap)
          st.voice_ids st.exclude_ids).2 := (he q).2 (Or.inl hqe)
      simp [CoreMix.classOf, hqv, hqe, hq1, hq2]
  · have hr3 : r ∈ (CoreMix.classify_new voice_apps exclude_apps (CoreMix.newKeys st snap)
        st.voice_ids st.exclude_ids).1 ↔ r ∈ st.voice_ids := by
      rw [hv]
      constructor
      · rintro (h | ⟨n, hn, hna⟩)
        · exact h
        · exact absurd ((hkeys (n, r) hn) ▸ hna) hr1
      · exact Or.inl
    have hr4 : r ∈ (CoreMix.classify_new voice_apps exclude_apps (CoreMix.newKeys st snap)
        st.voice_ids st.exclude_ids).2 ↔ r ∈ st.exclude_ids := by
      rw [he]
      constructor
      · rintro (h | ⟨n, hn, hnv, hne⟩)
        · exact h
        · exact absurd ((hkeys (n, r) hn) ▸ hne) hr2
      · exact Or.inl
    simp only [CoreMix.classOf]
    by_cases h5 : r ∈ st.voice_ids
    · simp [h5, hr3.2 h5]
    · by_cases h6 : r ∈ st.exclude_ids
      · simp [h5, h6, (show r ∉ _ from fun hx => h5 (hr3.1 hx)), hr4.2 h6]
      · simp [h5, h6, (show r ∉ _ from fun hx => h5 (hr3.1 hx)),
          (show r ∉ _ from fun hx => h6 (hr4.1 hx))]
  · simp [specClassOf, hm]

/-- Witness for C3 with voice set {v.exe} and excluded set
{v.exe, e.exe} (v.exe deliberately in both to exercise the tie), state
tracking pid 2 as excluded, and a snapshot with the new session
(v.exe, 1). -/
theorem C3_classification_exactly_once_witness :
    (consistentSnap c3name [⟨"v.exe", 1⟩]
     ∧ idsInv ["v.exe"] ["v.exe", "e.exe"] c3name ⟨100, 100, [], [2], []⟩
     ∧ (1 : Nat) ∉ (⟨100, 100, [], [2], []⟩ : CState).voice_ids
     ∧ (1 : Nat) ∉ (⟨100, 100, [], [2], []⟩ : CState).exclude_ids
     ∧ (c3name 1, 1) ∈ CoreMix.newKeys ⟨100, 100, [], [2], []⟩ [⟨"v.exe", 1⟩]
     ∧ CoreMix.classOf (⟨100, 100, [], [2], []⟩ : CState).voice_ids
         (⟨100, 100, [], [2], []⟩ : CState).exclude_ids 2 ≠ AppClass.system
     ∧ c3name 3 ∉ ["v.exe"] ∧ c3name 3 ∉ ["v.exe", "e.exe"]
     ∧ c3name 1 ∈ ["v.exe"])
    ∧ (((⟨100, 100, [], [2], []⟩ : CState).voice_ids
        ⊆ (CoreMix.monitor_iter noFail ["v.exe"] ["v.exe", "e.exe"] ⟨100, 100, [], [2], []⟩
            [⟨"v.exe", 1⟩] []).st.voice_ids
      ∧ (⟨100, 100, [], [2], []⟩ : CState).exclude_ids
        ⊆ (CoreMix.monitor_iter noFail ["v.exe"] ["v.exe", "e.exe"] ⟨100, 100, [], [2], []⟩
            [⟨"v.exe", 1⟩] []).st.exclude_ids)
    ∧ idsInv ["v.exe"] ["v.exe", "e.exe"] c3name
        (CoreMix.monitor_iter noFail ["v.exe"] ["v.exe", "e.exe"] ⟨100, 100, [], [2], []⟩
          [⟨"v.exe", 1⟩] []).st
    ∧ CoreMix.classOf
        (CoreMix.monitor_iter noFail ["v.exe"] ["v.exe", "e.exe"] ⟨100, 100, [], [2], []⟩
          [⟨"v.exe", 1⟩] []).st.voice_ids
        (CoreMix.monitor_iter noFail ["v.exe"] ["v.exe", "e.exe"] ⟨100, 100, [], [2], []⟩
          [⟨"v.exe", 1⟩] []).st.exclude_ids 1
      = specClassOf ["v.exe"] ["v.exe", "e.exe"] c3name 1
    ∧ CoreMix.classOf
        (CoreMix.monitor_iter noFail ["v.exe"] ["v.exe", "e.exe"] ⟨100, 100, [], [2], []⟩
          [⟨"v.exe", 1⟩] []).st.voice_ids
        (CoreMix.monitor_iter noFail ["v.exe"] ["v.exe", "e.exe"] ⟨100, 100, [], [2], []⟩
          [⟨"v.exe", 1⟩] []).st.exclude_ids 2
      = CoreMix.classOf (⟨100, 100, [], [2], []⟩ : CState).voice_ids
          (⟨100, 100, [], [2], []⟩ : CState).exclude_ids 2
    ∧ CoreMix.classOf
        (CoreMix.monitor_iter noFail ["v.exe"] ["v.exe", "e.exe"] ⟨100, 100, [], [2], []⟩
          [⟨"v.exe", 1⟩] []).st.voice_ids
        (CoreMix.monitor_iter noFail ["v.exe"] ["v.exe", "e.exe"] ⟨100, 100, [], [2], []⟩
          [⟨"v.exe", 1⟩] []).st.exclude_ids 3
      = CoreMix.classOf (⟨100, 100, [], [2], []⟩ : CState).voice_ids
          (⟨100, 100, [], [2], []⟩ : CState).exclude_ids 3
    ∧ specClassOf ["v.exe"] ["v.exe", "e.exe"] c3name 1 = AppClass.voice) :=
  ⟨⟨by unfold consistentSnap; decide, by unfold idsInv; decide, by decide, by decide,
    by decide, by decide, by decide, by decide, by decide⟩,
   C3_classification_exactly_once ["v.exe"] ["v.exe", "e.exe"] c3name
     ⟨100, 100, [], [2], []⟩ [⟨"v.exe", 1⟩] [] 1 2 3 1
     (by unfold consistentSnap; decide) (by unfold idsInv; decide) (by decide) (by decide)
     (by decide) (by decide) (by decide) (by decide) (by decide)⟩

/-- Run invariant behind C10: if a pid is known, untracked, and every
upcoming snapshot both contains its key and is pid-consistent for it,
then after any number of monitor iterations it is still known and still
untracked. -/
lemma CoreMix.monitor_run_keeps_untracked (voice_apps exclude_apps : List String)
    (nameOf : Nat → String) (p : Nat) (snaps : List (List Session)) :
    ∀ st : CState,
      (nameOf p, p) ∈ st.known_sessions → p ∉ st.voice_ids → p ∉ st.exclude_ids →
      (∀ snap ∈ snaps, (nameOf p, p) ∈ CoreMix.currentKeys snap
          ∧ ∀ k ∈ CoreMix.currentKeys snap, k.2 = p → k.1 = nameOf p) →
      (nameOf p, p)
          ∈ (CoreMix.monitor_run noFail voice_apps exclude_apps st snaps).known_sessions
      ∧ p ∉ (CoreMix.monitor_run noFail voice_apps exclude_apps st snaps).voice_ids
      ∧ p ∉ (CoreMix.monitor_run noFail voice_apps exclude_apps st snaps).exclude_ids := by
  induction snaps with
  | nil => exact fun st h1 h2 h3 _ => ⟨h1, h2, h3⟩
  | cons snap rest ih =>
    intro st h1 h2 h3 hall
    have hsnap := hall snap (List.mem_cons_self snap rest)
    have hnop : ∀ n : String, (n, p) ∉ CoreMix.newKeys st snap := by
      intro n hn
      have hk := (CoreMix.mem_newKeys st snap (n, p)).1 hn
      have hname : n = nameOf p := hsnap.2 (n, p) hk.1 rfl
      exact hk.2 (by rw [hname]; exact h1)
    rw [CoreMix.monitor_run]
    apply ih
    · rw [CoreMix.monitor_iter_noFail_st]
      exact hsnap.1
    · rw [CoreMix.monitor_iter_noFail_st]
      intro hmem
      rcases (CoreMix.classify_new_fst_mem voice_apps exclude_apps
          (CoreMix.newKeys st snap) st.voice_ids st.exclude_ids p).1 hmem with
        h | ⟨n, hn, _⟩
      · exact h2 h
      · exact hnop n hn
    · rw [CoreMix.monitor_iter_noFail_st]
      intro hmem
      rcases (CoreMix.classify_new_snd_mem voice_apps exclude_apps
          (CoreMix.newKeys st snap) st.voice_ids st.exclude_ids p).1 hmem with
        h | ⟨n, hn, _⟩
      · exact h3 h
      · exact hnop n hn
    · exact fun snap2 hmem2 => hall snap2 (List.mem_cons_of_mem snap hmem2)

/-- C10: in the class-based variant, a session whose key is already in
the startup snapshot and stays in every polled snapshot is never
classified: its pid never enters voice_ids or exclude_ids (whatever the
configured name sets say about its name), so every apply pass for the
whole run sets its volume to system_level/100. -/
theorem C10_preexisting_session_stays_system (voice_apps exclude_apps : List String)
    (nameOf : Nat → String) (p : Nat) (snap0 : List Session)
    (snaps : List (List Session)) (voice_level system_level : Nat)
    (h0 : (nameOf p, p) ∈ CoreMix.currentKeys snap0)
    (hall : ∀ snap ∈ snaps, (nameOf p, p) ∈ CoreMix.currentKeys snap
        ∧ ∀ k ∈ CoreMix.currentKeys snap, k.2 = p → k.1 = nameOf p) :
    p ∉ (CoreMix.monitor_run noFail voice_apps exclude_apps
          (CoreMix.initState snap0) snaps).voice_ids
    ∧ p ∉ (CoreMix.monitor_run noFail voice_apps exclude_apps
          (CoreMix.initState snap0) snaps).exclude_ids
    ∧ CoreMix.set_volume_levels noFail
        (CoreMix.monitor_run noFail voice_apps exclude_apps
          (CoreMix.initState snap0) snaps).voice_ids
        (CoreMix.monitor_run noFail voice_apps exclude_apps
          (CoreMix.initState snap0) snaps).exclude_ids
        voice_level system_level [⟨nameOf p, p⟩]
      = ([⟨nameOf p, p, (system_level : ℚ) / 100⟩], none) := by
  obtain ⟨hk, hv, he⟩ := CoreMix.monitor_run_keeps_untracked voice_apps exclude_apps
    nameOf p snaps (CoreMix.initState snap0) h0 (by simp [CoreMix.initState])
    (by simp [CoreMix.initState]) hall
  refine ⟨hv, he, ?_⟩
  simp [CoreMix.set_volume_levels, hv, he, noFail]

/-- Witness for C10: discord.exe (pid 7) is in the startup snapshot, its
name is the only configured voice name, it stays present through one
poll cycle, and the apply pass with levels (30, 80) still sets it to
80/100 - the system fraction. -/
theorem C10_preexisting_session_stays_system_witness :
    ((c3name 7, 7) ∈ CoreMix.currentKeys [⟨"s.exe", 7⟩]
     ∧ ∀ snap ∈ [[(⟨"s.exe", 7⟩ : Session)]],
        (c3name 7, 7) ∈ CoreMix.currentKeys snap
        ∧ ∀ k ∈ CoreMix.currentKeys snap, k.2 = 7 → k.1 = c3name 7)
    ∧ (7 ∉ (CoreMix.monitor_run noFail ["s.exe"] [] (CoreMix.initState [⟨"s.exe", 7⟩])
          [[⟨"s.exe", 7⟩]]).voice_ids
    ∧ 7 ∉ (CoreMix.monitor_run noFail ["s.exe"] [] (CoreMix.initState [⟨"s.exe", 7⟩])
          [[⟨"s.exe", 7⟩]]).exclude_ids
    ∧ CoreMix.set_volume_levels noFail
        (CoreMix.monitor_run noFail ["s.exe"] [] (CoreMix.initState [⟨"s.exe", 7⟩])
          [[⟨"s.exe", 7⟩]]).voice_ids
        (CoreMix.monitor_run noFail ["s.exe"] [] (CoreMix.initState [⟨"s.exe", 7⟩])
          [[⟨"s.exe", 7⟩]]).exclude_ids
        30 80 [⟨c3name 7, 7⟩]
      = ([⟨c3name 7, 7, (80 : ℚ) / 100⟩], none)) :=
  ⟨⟨by decide, by decide⟩,
   C10_preexisting_session_stays_system ["s.exe"] [] c3name 7 [⟨"s.exe", 7⟩]
     [[⟨"s.exe", 7⟩]] 30 80 (by decide) (by decide)⟩
